import Mathlib

/-!
Verification of the AfterLight backend bootstrap layer.

This file gives a shallow embedding of the three source files of the
repository and proves the specified properties against it:

* `universal_start.py` — platform detection (`detect_platform`), the
  environment normalizers (`setup_railway_environment`,
  `setup_render_environment`, `setup_local_environment`,
  `setup_environment`), the required-variable validation
  (`check_requirements`) and the main startup sequence (`universal_main`).
* `render_start.py` — the Render-only variant (`render_main` and friends).
* `app/config.py` — the pydantic `Settings` class: field population from the
  environment (`rawSettings` guarded by `fieldsParseOk`, modelling
  `BaseSettings.__init__`), the post-`super().__init__` derivation steps
  (`settingsInit`), the module-level environment-specific overrides
  (`applyEnvOverrides`, `resolvedSettings`) and the list accessors
  (`allowed_origins_list`, `allowed_hosts_list`, `allowed_file_types_list`).

The process environment is modelled as a map from variable name to optional
string value.  Mutation of `os.environ` becomes explicit state passing.
Python exceptions raised during `Settings` construction are modelled by
`Except`; `sys.exit(1)` in the startup scripts is modelled by the
`StartResult.exitMissing` outcome.  Python's truthiness test on
`os.getenv(k)` (false for both an absent variable and an empty string) is
modelled by `truthy`.
-/

/-- A process environment: variable name to optional value (as `os.environ`). -/
abbrev Env : Type := String → Option String

/-- The empty environment (no variables set). -/
def emptyEnv : Env := fun _ => none

/-- `os.environ[k] = v`. -/
def setEnv (e : Env) (k v : String) : Env := fun q => if q = k then some v else e q

/-- Python truthiness of `os.getenv k`: `False` for an absent variable and
for the empty string, `True` otherwise. -/
def truthy (e : Env) (k : String) : Bool := !(((e k).getD "") == "")

/-! ### Character-level string utilities

Python `str.strip`, `str.split(',')` and `','.join`-style operations are modelled
on `List Char`; `String` wrappers follow. -/

/-- Python `str.strip()`: drop whitespace from both ends. -/
def trimC (l : List Char) : List Char :=
  ((l.dropWhile Char.isWhitespace).reverse.dropWhile Char.isWhitespace).reverse

/-- Python `s.split(',')` on character lists: `acc` holds the (reversed)
characters of the piece being read.  `splitCommaC [] []` is `[[]]`, matching
`"".split(',') == ['']`. -/
def splitCommaC : List Char → List Char → List (List Char)
  | [], acc => [acc.reverse]
  | c :: cs, acc => if c = ',' then acc.reverse :: splitCommaC cs [] else splitCommaC cs (c :: acc)

/-- Python `','.join` on character lists. -/
def joinCommaC : List (List Char) → List Char
  | [] => []
  | [t] => t
  | t :: u :: us => t ++ ',' :: joinCommaC (u :: us)

/-- `[x.strip() for x in l.split(',') if x.strip()]` on character lists. -/
def splitTrimC (l : List Char) : List (List Char) :=
  ((splitCommaC l []).map trimC).filter (fun t => !t.isEmpty)

/-- `[x.strip() for x in s.split(',') if x.strip()]`, the comprehension used by
the `Settings` list accessors. -/
def pySplitTrim (s : String) : List String := (splitTrimC s.toList).map List.asString

/-- `','.join ts`: re-joining a derived list with the comma delimiter. -/
def commaJoin (ts : List String) : String := List.asString (joinCommaC (ts.map String.toList))

/-- Python `s.lower()` (ASCII case folding, as used on `LOG_LEVEL` values). -/
def pyLower (s : String) : String := List.asString (s.toList.map Char.toLower)

/-- Value of a list of decimal digit characters. -/
def digitsVal (ds : List Char) : Int :=
  ds.foldl (fun n c => 10 * n + Int.ofNat (c.toNat - 48)) 0

/-- Python `int(s)` for decimal strings: surrounding whitespace is ignored, an
optional single `+`/`-` sign precedes a non-empty digit string; anything else
raises `ValueError`, modelled as `none`. -/
def pyInt? (s : String) : Option Int :=
  match trimC s.toList with
  | [] => none
  | c :: ds =>
    if c = '+' then
      if !ds.isEmpty && ds.all Char.isDigit then some (digitsVal ds) else none
    else if c = '-' then
      if !ds.isEmpty && ds.all Char.isDigit then some (-digitsVal ds) else none
    else if (c :: ds).all Char.isDigit then some (digitsVal (c :: ds)) else none

/-- Pydantic's lax boolean parsing of an environment string (as for the
`DEBUG` and `ENABLE_DEBUG_ROUTES` fields). -/
def pyBool? (s : String) : Option Bool :=
  let t := pyLower s
  if t = "true" ∨ t = "t" ∨ t = "yes" ∨ t = "y" ∨ t = "on" ∨ t = "1" then some true
  else if t = "false" ∨ t = "f" ∨ t = "no" ∨ t = "n" ∨ t = "off" ∨ t = "0" then some false
  else none

/-! ### `universal_start.py` and `render_start.py` -/

/-- `detect_platform` from `universal_start.py`: a pure function of the
environment returning `"railway"`, `"render"` or `"local"`. -/
def detect_platform (e : Env) : String :=
  if truthy e "RAILWAY_ENVIRONMENT" then "railway"
  else if truthy e "RENDER" then "render"
  else "local"

/-- The three consecutive writes `os.environ['ENVIRONMENT'] = a`,
`os.environ['DEBUG'] = b`, `os.environ['LOG_LEVEL'] = c` used by the
normalizers. -/
def setTriple (e : Env) (a b c : String) : Env :=
  setEnv (setEnv (setEnv e "ENVIRONMENT" a) "DEBUG" b) "LOG_LEVEL" c

/-- One step of the `for key, value in vars.items(): if value: os.environ[key] = value`
copy loops: write `k := s` only when the captured value `v` is truthy. -/
def copyIfTruthy (e : Env) (k : String) (v : Option String) : Env :=
  match v with
  | none => e
  | some s => if s = "" then e else setEnv e k s

/-- `setup_railway_environment` from `universal_start.py`.  The `railway_vars`
values are captured from the incoming environment before any write. -/
def setup_railway_environment (e : Env) : Env :=
  let railwayEnv := (e "RAILWAY_ENVIRONMENT").getD "development"
  let e1 :=
    if railwayEnv = "production" then setTriple e "production" "false" "INFO"
    else if railwayEnv = "staging" then setTriple e "staging" "false" "INFO"
    else setTriple e "development" "true" "DEBUG"
  let e2 := copyIfTruthy e1 "PORT" (some ((e "PORT").getD "8000"))
  let e3 := copyIfTruthy e2 "RAILWAY_ENVIRONMENT" (some railwayEnv)
  let e4 := copyIfTruthy e3 "RAILWAY_PROJECT_ID" (e "RAILWAY_PROJECT_ID")
  let e5 := copyIfTruthy e4 "RAILWAY_SERVICE_ID" (e "RAILWAY_SERVICE_ID")
  copyIfTruthy e5 "RAILWAY_DEPLOYMENT_ID" (e "RAILWAY_DEPLOYMENT_ID")

/-- `setup_render_environment`, identical in `universal_start.py` and
`render_start.py`. -/
def setup_render_environment (e : Env) : Env :=
  let renderFlag := (e "RENDER").getD "false"
  let e1 := if renderFlag = "true" then setTriple e "production" "false" "INFO" else e
  let e2 := copyIfTruthy e1 "PORT" (some ((e "PORT").getD "8000"))
  let e3 := copyIfTruthy e2 "RENDER" (some renderFlag)
  let e4 := copyIfTruthy e3 "RENDER_EXTERNAL_URL" (e "RENDER_EXTERNAL_URL")
  copyIfTruthy e4 "RENDER_EXTERNAL_HOSTNAME" (e "RENDER_EXTERNAL_HOSTNAME")

/-- `setup_local_environment` from `universal_start.py`: fill
`ENVIRONMENT`/`DEBUG`/`LOG_LEVEL` only when currently falsy. -/
def setup_local_environment (e : Env) : Env :=
  let e1 := if truthy e "ENVIRONMENT" then e else setEnv e "ENVIRONMENT" "development"
  let e2 := if truthy e1 "DEBUG" then e1 else setEnv e1 "DEBUG" "true"
  if truthy e2 "LOG_LEVEL" then e2 else setEnv e2 "LOG_LEVEL" "DEBUG"

/-- `setup_environment` from `universal_start.py`: dispatch on the detected
platform. -/
def setup_environment (e : Env) : Env :=
  if detect_platform e = "railway" then setup_railway_environment e
  else if detect_platform e = "render" then setup_render_environment e
  else setup_local_environment e

/-- The required-variable set of `check_requirements` in `universal_start.py`:
only `JWT_SECRET` for a local platform, `DATABASE_URL` and `JWT_SECRET`
otherwise. -/
def required_vars (e : Env) : List String :=
  if detect_platform e = "local" then ["JWT_SECRET"] else ["DATABASE_URL", "JWT_SECRET"]

/-- The `missing_vars` list accumulated by `check_requirements`: required
variables whose `os.getenv` value is falsy. -/
def missing_vars (e : Env) : List String :=
  (required_vars e).filter (fun v => !truthy e v)

/-- `check_requirements` returns `True` exactly when no required variable is
missing. -/
def check_requirements (e : Env) : Bool := (missing_vars e).isEmpty

/-- The required-variable set of `check_render_requirements` in
`render_start.py` is unconditional. -/
def render_missing (e : Env) : List String :=
  (["DATABASE_URL", "JWT_SECRET"].filter (fun v => !truthy e v))

/-- Outcome of a startup script run: `exitMissing missing` models
`sys.exit(1)` after printing the missing variable names; `launch port
logLevel delaySeconds` models reaching `uvicorn.run` bound to `0.0.0.0` on
`port` (reload disabled, access log enabled) after the stabilization sleep. -/
inductive StartResult where
  | exitMissing (missing : List String) : StartResult
  | launch (port : Int) (logLevel : String) (delaySeconds : Nat) : StartResult
deriving DecidableEq

/-- The port resolution of `main` in `universal_start.py`: read `PORT`
(default `"8000"`), substitute the exact literal `"$PORT"` with `"8000"`,
then `int(...)` with a caught `ValueError` falling back to `8000`. -/
def resolve_port_universal (e : Env) : Int :=
  let ps := (e "PORT").getD "8000"
  let ps2 := if ps = "$PORT" then "8000" else ps
  (pyInt? ps2).getD 8000

/-- The port resolution of `main` in `render_start.py`: same, but with no
special case for the literal `"$PORT"`. -/
def resolve_port_render (e : Env) : Int :=
  (pyInt? ((e "PORT").getD "8000")).getD 8000

/-- `main` of `universal_start.py`: normalize the environment, validate the
required variables (exiting with code 1 on a miss), resolve the port and
launch with the case-folded `LOG_LEVEL` and the platform-dependent delay. -/
def universal_main (e0 : Env) : StartResult :=
  let e := setup_environment e0
  if check_requirements e then
    StartResult.launch (resolve_port_universal e) (pyLower ((e "LOG_LEVEL").getD "INFO"))
      (if detect_platform e = "render" then 3 else 5)
  else StartResult.exitMissing (missing_vars e)

/-- `main` of `render_start.py`. -/
def render_main (e0 : Env) : StartResult :=
  let e := setup_render_environment e0
  if (render_missing e).isEmpty then
    StartResult.launch (resolve_port_render e) (pyLower ((e "LOG_LEVEL").getD "INFO")) 3
  else StartResult.exitMissing (render_missing e)

/-! ### `app/config.py` -/

/-- The `ALLOWED_*` fields are declared `str` but the module-level overrides
reassign them to Python lists; the dynamic type is one of the two. -/
inductive StrOrList where
  | str (s : String) : StrOrList
  | list (l : List String) : StrOrList
deriving DecidableEq

/-- The `Settings` record of `app/config.py`, one field per pydantic field. -/
structure Settings where
  APP_NAME : String
  VERSION : String
  ENVIRONMENT : String
  DEBUG : Bool
  HOST : String
  PORT : Int
  JWT_SECRET : String
  JWT_ALGORITHM : String
  JWT_EXPIRATION_MINUTES : Int
  ACCESS_TOKEN_EXPIRE_MINUTES : Int
  ALLOWED_ORIGINS : StrOrList
  ALLOWED_HOSTS : StrOrList
  DATABASE_URL : Option String
  DATABASE_HOST : String
  DATABASE_PORT : Int
  DATABASE_NAME : String
  DATABASE_USER : String
  DATABASE_PASSWORD : String
  REDIS_URL : Option String
  REDIS_HOST : String
  REDIS_PORT : Int
  REDIS_DB : Int
  OPENAI_API_KEY : Option String
  OPENAI_MODEL : String
  OPENAI_MAX_TOKENS : Int
  MAX_FILE_SIZE : Int
  UPLOAD_DIR : String
  ALLOWED_FILE_TYPES : StrOrList
  RATE_LIMIT_WINDOW : Int
  RATE_LIMIT_MAX_REQUESTS : Int
  LOG_LEVEL : String
  LOG_FORMAT : String
  SUPABASE_URL : Option String
  SUPABASE_KEY : Option String
  SMTP_HOST : Option String
  SMTP_PORT : Int
  SMTP_USER : Option String
  SMTP_PASSWORD : Option String
  EMAIL_FROM : String
  PRINTFUL_API_KEY : Option String
  LOB_API_KEY : Option String
  FRONTEND_URL : String
  ENABLE_DEBUG_ROUTES : Bool
deriving DecidableEq

/-- A `str` pydantic field read from the (case-sensitive) environment, with
its declared default. -/
def envStr (e : Env) (k d : String) : String := (e k).getD d

/-- An `int` pydantic field read from the environment: the declared default
when the variable is absent, the parsed value otherwise (`envIntOk` guards
the parse). -/
def envIntD (e : Env) (k : String) (d : Int) : Int :=
  match e k with
  | none => d
  | some v => (pyInt? v).getD d

/-- Whether an `int` pydantic field validates: an absent variable is fine, a
present one must parse as an integer (the empty string does not). -/
def envIntOk (e : Env) (k : String) : Bool :=
  match e k with
  | none => true
  | some v => (pyInt? v).isSome

/-- A `bool` pydantic field read from the environment. -/
def envBoolD (e : Env) (k : String) (d : Bool) : Bool :=
  match e k with
  | none => d
  | some v => (pyBool? v).getD d

/-- Whether a `bool` pydantic field validates. -/
def envBoolOk (e : Env) (k : String) : Bool :=
  match e k with
  | none => true
  | some v => (pyBool? v).isSome

/-- Whether `BaseSettings.__init__` validates: every `int` and `bool` field
whose environment variable is present must parse (string-typed and
`Optional[str]` fields always validate). -/
def fieldsParseOk (e : Env) : Bool :=
  envIntOk e "PORT" && envIntOk e "JWT_EXPIRATION_MINUTES" &&
  envIntOk e "ACCESS_TOKEN_EXPIRE_MINUTES" && envIntOk e "DATABASE_PORT" &&
  envIntOk e "REDIS_PORT" && envIntOk e "REDIS_DB" && envIntOk e "OPENAI_MAX_TOKENS" &&
  envIntOk e "MAX_FILE_SIZE" && envIntOk e "RATE_LIMIT_WINDOW" &&
  envIntOk e "RATE_LIMIT_MAX_REQUESTS" && envIntOk e "SMTP_PORT" &&
  envBoolOk e "DEBUG" && envBoolOk e "ENABLE_DEBUG_ROUTES"

/-- The default `ALLOWED_ORIGINS` string of `app/config.py`. -/
def allowedOriginsDefault : String :=
  "http://localhost:3000,http://localhost:3001,https://afterlight.app,https://www.afterlight.app"

/-- The field values produced by `super().__init__()` (pydantic
`BaseSettings`): each field takes its environment variable's value when
present, its declared default otherwise. -/
def rawSettings (e : Env) : Settings where
  APP_NAME := envStr e "APP_NAME" "AfterLight API"
  VERSION := envStr e "VERSION" "1.1.0"
  ENVIRONMENT := envStr e "ENVIRONMENT" "development"
  DEBUG := envBoolD e "DEBUG" true
  HOST := envStr e "HOST" "0.0.0.0"
  PORT := envIntD e "PORT" 8000
  JWT_SECRET := envStr e "JWT_SECRET" "your-super-secret-key-change-in-production"
  JWT_ALGORITHM := envStr e "JWT_ALGORITHM" "HS256"
  JWT_EXPIRATION_MINUTES := envIntD e "JWT_EXPIRATION_MINUTES" 30
  ACCESS_TOKEN_EXPIRE_MINUTES := envIntD e "ACCESS_TOKEN_EXPIRE_MINUTES" 30
  ALLOWED_ORIGINS := StrOrList.str (envStr e "ALLOWED_ORIGINS" allowedOriginsDefault)
  ALLOWED_HOSTS := StrOrList.str (envStr e "ALLOWED_HOSTS" "localhost,127.0.0.1,afterlight.app,www.afterlight.app")
  DATABASE_URL := e "DATABASE_URL"
  DATABASE_HOST := envStr e "DATABASE_HOST" "localhost"
  DATABASE_PORT := envIntD e "DATABASE_PORT" 5432
  DATABASE_NAME := envStr e "DATABASE_NAME" "afterlight"
  DATABASE_USER := envStr e "DATABASE_USER" "postgres"
  DATABASE_PASSWORD := envStr e "DATABASE_PASSWORD" ""
  REDIS_URL := e "REDIS_URL"
  REDIS_HOST := envStr e "REDIS_HOST" "localhost"
  REDIS_PORT := envIntD e "REDIS_PORT" 6379
  REDIS_DB := envIntD e "REDIS_DB" 0
  OPENAI_API_KEY := e "OPENAI_API_KEY"
  OPENAI_MODEL := envStr e "OPENAI_MODEL" "gpt-4"
  OPENAI_MAX_TOKENS := envIntD e "OPENAI_MAX_TOKENS" 2000
  MAX_FILE_SIZE := envIntD e "MAX_FILE_SIZE" 5242880
  UPLOAD_DIR := envStr e "UPLOAD_DIR" "uploads"
  ALLOWED_FILE_TYPES := StrOrList.str (envStr e "ALLOWED_FILE_TYPES" "image/jpeg,image/png,image/gif,image/webp")
  RATE_LIMIT_WINDOW := envIntD e "RATE_LIMIT_WINDOW" 60
  RATE_LIMIT_MAX_REQUESTS := envIntD e "RATE_LIMIT_MAX_REQUESTS" 100
  LOG_LEVEL := envStr e "LOG_LEVEL" "INFO"
  LOG_FORMAT := envStr e "LOG_FORMAT" "%(asctime)s - %(name)s - %(levelname)s - %(message)s"
  SUPABASE_URL := e "SUPABASE_URL"
  SUPABASE_KEY := e "SUPABASE_KEY"
  SMTP_HOST := e "SMTP_HOST"
  SMTP_PORT := envIntD e "SMTP_PORT" 587
  SMTP_USER := e "SMTP_USER"
  SMTP_PASSWORD := e "SMTP_PASSWORD"
  EMAIL_FROM := envStr e "EMAIL_FROM" "noreply@afterlight.app"
  PRINTFUL_API_KEY := e "PRINTFUL_API_KEY"
  LOB_API_KEY := e "LOB_API_KEY"
  FRONTEND_URL := envStr e "FRONTEND_URL" "http://localhost:3000"
  ENABLE_DEBUG_ROUTES := envBoolD e "ENABLE_DEBUG_ROUTES" true

/-- `super().__init__()`: pydantic raises a `ValidationError` when any typed
field fails to parse, otherwise yields the populated record. -/
def settingsFields (e : Env) : Except String Settings :=
  if fieldsParseOk e then Except.ok (rawSettings e) else Except.error "pydantic ValidationError"

/-- Python truthiness of an `Optional[str]` field: falsy when `None` or the
empty string. -/
def optFalsy : Option String → Bool
  | none => true
  | some v => v == ""

/-- The database URL synthesized at lines 120-124 of `app/config.py`: the
credential segment is omitted entirely when `DATABASE_PASSWORD` is falsy. -/
def buildDatabaseUrl (s : Settings) : String :=
  if s.DATABASE_PASSWORD ≠ "" then
    "postgresql://" ++ s.DATABASE_USER ++ ":" ++ s.DATABASE_PASSWORD ++ "@" ++
      s.DATABASE_HOST ++ ":" ++ toString s.DATABASE_PORT ++ "/" ++ s.DATABASE_NAME
  else
    "postgresql://" ++ s.DATABASE_USER ++ "@" ++ s.DATABASE_HOST ++ ":" ++
      toString s.DATABASE_PORT ++ "/" ++ s.DATABASE_NAME

/-- The Redis URL synthesized at lines 127-128 of `app/config.py`. -/
def buildRedisUrl (s : Settings) : String :=
  "redis://" ++ s.REDIS_HOST ++ ":" ++ toString s.REDIS_PORT ++ "/" ++ toString s.REDIS_DB

/-- The last three derivation steps of `Settings.__init__`: synthesize
`DATABASE_URL` when falsy, synthesize `REDIS_URL` when falsy, then recompute
`DEBUG` from the final environment name.  The three steps read disjoint
fields, so they are written as one simultaneous update. -/
def finishInit (s : Settings) : Settings :=
  { s with
    DATABASE_URL := if optFalsy s.DATABASE_URL then some (buildDatabaseUrl s) else s.DATABASE_URL
    REDIS_URL := if optFalsy s.REDIS_URL then some (buildRedisUrl s) else s.REDIS_URL
    DEBUG := s.ENVIRONMENT == "development" }

/-- The body of `Settings.__init__` after `super().__init__()`: the
Railway-specific `ENVIRONMENT`/`DEBUG` override (lines 111-113), the `PORT`
override whose `int(...)` raises on an unparseable value (lines 116-117),
then `finishInit` (lines 119-131). -/
def initBody (e : Env) (s0 : Settings) : Except String Settings :=
  let s1 :=
    if truthy e "RAILWAY_ENVIRONMENT" then
      let name := (e "RAILWAY_ENVIRONMENT").getD "development"
      { s0 with ENVIRONMENT := name, DEBUG := name == "development" }
    else s0
  if truthy e "PORT" then
    match pyInt? ((e "PORT").getD "") with
    | some n => Except.ok (finishInit { s1 with PORT := n })
    | none => Except.error "ValueError: invalid literal for int()"
  else Except.ok (finishInit s1)

/-- `Settings.__init__` for a construction with no keyword arguments:
`super().__init__()` (field validation), then the derivation steps of
`initBody`. -/
def settingsInit (e : Env) : Except String Settings :=
  match settingsFields e with
  | Except.error m => Except.error m
  | Except.ok s0 => initBody e s0

/-- The module-level environment-specific overrides of `app/config.py`
(lines 136-147): production forces `DEBUG := false` and the fixed production
origin list, staging forces the fixed staging origin list. -/
def applyEnvOverrides (s : Settings) : Settings :=
  if s.ENVIRONMENT = "production" then
    { s with DEBUG := false,
             ALLOWED_ORIGINS := StrOrList.list
               ["https://afterlight.app", "https://www.afterlight.app"] }
  else if s.ENVIRONMENT = "staging" then
    { s with ALLOWED_ORIGINS := StrOrList.list
               ["https://staging.afterlight.app", "https://staging-www.afterlight.app"] }
  else s

/-- The module-level `settings = Settings()` value after the overrides. -/
def resolvedSettings (e : Env) : Except String Settings :=
  (settingsInit e).map applyEnvOverrides

/-- The concrete record produced by `resolvedSettings` (for witnesses at
environments where construction succeeds). -/
def settingsOf (e : Env) : Settings := ((resolvedSettings e).toOption).getD (rawSettings e)

/-- The concrete record produced by `settingsInit` (for witnesses at
environments where `Settings.__init__` succeeds). -/
def settingsOfInit (e : Env) : Settings := ((settingsInit e).toOption).getD (rawSettings e)

/-- The `allowed_origins_list` property. -/
def allowed_origins_list (s : Settings) : List String :=
  match s.ALLOWED_ORIGINS with
  | StrOrList.str v => pySplitTrim v
  | StrOrList.list l => l

/-- The `allowed_hosts_list` property. -/
def allowed_hosts_list (s : Settings) : List String :=
  match s.ALLOWED_HOSTS with
  | StrOrList.str v => pySplitTrim v
  | StrOrList.list l => l

/-- The `allowed_file_types_list` property. -/
def allowed_file_types_list (s : Settings) : List String :=
  match s.ALLOWED_FILE_TYPES with
  | StrOrList.str v => pySplitTrim v
  | StrOrList.list l => l

/-! ### Environment lemmas -/

theorem setEnv_self (e : Env) (k v : String) : setEnv e k v k = some v := by
  simp [setEnv]

theorem copyIfTruthy_other {q k : String} (e : Env) (v : Option String) (h : q ≠ k) :
    copyIfTruthy e k v q = e q := by
  cases v with
  | none => rfl
  | some s =>
    by_cases hs : s = "" <;> simp [copyIfTruthy, hs, setEnv, h]

theorem setup_local_keeps {q : String} (e : Env)
    (h1 : q ≠ "ENVIRONMENT") (h2 : q ≠ "DEBUG") (h3 : q ≠ "LOG_LEVEL") :
    setup_local_environment e q = e q := by
  simp only [setup_local_environment]
  split <;> split <;> split <;> simp [setEnv, h1, h2, h3]

theorem railway_triple_keeps_PORT (e : Env) (v : String) :
    (if v = "production" then setTriple e "production" "false" "INFO"
     else if v = "staging" then setTriple e "staging" "false" "INFO"
     else setTriple e "development" "true" "DEBUG") "PORT" = e "PORT" := by
  split
  · simp [setTriple, setEnv]
  · split <;> simp [setTriple, setEnv]

theorem render_triple_keeps_PORT (e : Env) (v : String) :
    (if v = "true" then setTriple e "production" "false" "INFO" else e) "PORT" = e "PORT" := by
  split <;> simp [setTriple, setEnv]

theorem setup_railway_keeps_PORT (e : Env) (s : String) (h : e "PORT" = some s) :
    setup_railway_environment e "PORT" = some s := by
  simp only [setup_railway_environment]
  rw [copyIfTruthy_other _ _ (by decide), copyIfTruthy_other _ _ (by decide),
    copyIfTruthy_other _ _ (by decide), copyIfTruthy_other _ _ (by decide), h]
  simp only [Option.getD_some]
  by_cases hs : s = ""
  · subst hs
    simp only [copyIfTruthy, if_pos]
    rw [railway_triple_keeps_PORT]
    exact h
  · simp only [copyIfTruthy, if_neg hs]
    exact setEnv_self _ _ _

theorem setup_render_keeps_PORT (e : Env) (s : String) (h : e "PORT" = some s) :
    setup_render_environment e "PORT" = some s := by
  simp only [setup_render_environment]
  rw [copyIfTruthy_other _ _ (by decide), copyIfTruthy_other _ _ (by decide),
    copyIfTruthy_other _ _ (by decide), h]
  simp only [Option.getD_some]
  by_cases hs : s = ""
  · subst hs
    simp only [copyIfTruthy, if_pos]
    rw [render_triple_keeps_PORT]
    exact h
  · simp only [copyIfTruthy, if_neg hs]
    exact setEnv_self _ _ _

theorem setup_keeps_PORT (e : Env) (s : String) (h : e "PORT" = some s) :
    setup_environment e "PORT" = some s := by
  unfold setup_environment
  split
  · exact setup_railway_keeps_PORT e s h
  · split
    · exact setup_render_keeps_PORT e s h
    · rw [setup_local_keeps e (by decide) (by decide) (by decide)]
      exact h

theorem setup_railway_prod_lookups (e : Env) (h : e "RAILWAY_ENVIRONMENT" = some "production") :
    setup_railway_environment e "ENVIRONMENT" = some "production" ∧
    setup_railway_environment e "DEBUG" = some "false" ∧
    setup_railway_environment e "LOG_LEVEL" = some "INFO" := by
  refine ⟨?_, ?_, ?_⟩ <;>
  · simp only [setup_railway_environment]
    rw [copyIfTruthy_other _ _ (by decide), copyIfTruthy_other _ _ (by decide),
      copyIfTruthy_other _ _ (by decide), copyIfTruthy_other _ _ (by decide),
      copyIfTruthy_other _ _ (by decide)]
    simp [h, setTriple, setEnv]

theorem detect_railway_of_prod (e : Env) (h : e "RAILWAY_ENVIRONMENT" = some "production") :
    detect_platform e = "railway" := by
  simp [detect_platform, truthy, h]

theorem pyInt_8000 : pyInt? "8000" = some 8000 := by decide

theorem resolve_port_universal_of_bad (E : Env) (s : String) (h : E "PORT" = some s)
    (hn : pyInt? s = none) : resolve_port_universal E = 8000 := by
  unfold resolve_port_universal
  rw [h]
  simp only [Option.getD_some]
  by_cases hp : s = "$PORT"
  · simp [hp, pyInt_8000]
  · simp [hp, hn]

theorem resolve_port_render_of_bad (E : Env) (s : String) (h : E "PORT" = some s)
    (hn : pyInt? s = none) : resolve_port_render E = 8000 := by
  unfold resolve_port_render
  rw [h]
  simp [hn]

/-! ### `Settings` lemmas -/

theorem finishInit_ENVIRONMENT (s : Settings) : (finishInit s).ENVIRONMENT = s.ENVIRONMENT := rfl

theorem finishInit_DEBUG (s : Settings) :
    (finishInit s).DEBUG = (s.ENVIRONMENT == "development") := rfl

theorem finishInit_ALLOWED_ORIGINS (s : Settings) :
    (finishInit s).ALLOWED_ORIGINS = s.ALLOWED_ORIGINS := rfl

theorem finishInit_DATABASE_URL (s : Settings) :
    (finishInit s).DATABASE_URL =
      if optFalsy s.DATABASE_URL then some (buildDatabaseUrl s) else s.DATABASE_URL := rfl

theorem finishInit_REDIS_URL (s : Settings) :
    (finishInit s).REDIS_URL =
      if optFalsy s.REDIS_URL then some (buildRedisUrl s) else s.REDIS_URL := rfl

theorem buildDatabaseUrl_finishInit (s : Settings) :
    buildDatabaseUrl (finishInit s) = buildDatabaseUrl s := rfl

theorem buildRedisUrl_finishInit (s : Settings) :
    buildRedisUrl (finishInit s) = buildRedisUrl s := rfl

theorem initBody_shape (e : Env) (s0 s : Settings) (h : initBody e s0 = Except.ok s) :
    ∃ en dbg prt,
      s = finishInit { s0 with ENVIRONMENT := en, DEBUG := dbg, PORT := prt } := by
  unfold initBody at h
  by_cases hR : truthy e "RAILWAY_ENVIRONMENT" <;> by_cases hP : truthy e "PORT" <;>
    simp only [hR, hP, if_true, if_false, Bool.false_eq_true, ite_true, ite_false] at h
  · cases hI : pyInt? ((e "PORT").getD "") with
    | some n =>
      rw [hI] at h
      injection h with h
      exact ⟨_, _, n, h.symm⟩
    | none => rw [hI] at h; exact absurd h (by simp)
  · injection h with h
    exact ⟨_, _, s0.PORT, h.symm⟩
  · cases hI : pyInt? ((e "PORT").getD "") with
    | some n =>
      rw [hI] at h
      injection h with h
      exact ⟨s0.ENVIRONMENT, s0.DEBUG, n, h.symm⟩
    | none => rw [hI] at h; exact absurd h (by simp)
  · injection h with h
    exact ⟨s0.ENVIRONMENT, s0.DEBUG, s0.PORT, h.symm⟩

theorem settingsInit_shape (e : Env) (s : Settings) (h : settingsInit e = Except.ok s) :
    fieldsParseOk e = true ∧ ∃ en dbg prt,
      s = finishInit { rawSettings e with ENVIRONMENT := en, DEBUG := dbg, PORT := prt } := by
  unfold settingsInit settingsFields at h
  by_cases hf : fieldsParseOk e
  · rw [if_pos hf] at h
    exact ⟨hf, initBody_shape e (rawSettings e) s h⟩
  · rw [if_neg hf] at h
    exact absurd h (by simp)

theorem applyEnvOverrides_ENVIRONMENT (s : Settings) :
    (applyEnvOverrides s).ENVIRONMENT = s.ENVIRONMENT := by
  unfold applyEnvOverrides
  split
  · rfl
  · split <;> rfl

theorem settingsInit_DEBUG (e : Env) (s : Settings) (h : settingsInit e = Except.ok s) :
    s.DEBUG = (s.ENVIRONMENT == "development") := by
  obtain ⟨-, en, dbg, prt, rfl⟩ := settingsInit_shape e s h
  rfl

theorem resolvedSettings_ok (e : Env) (s : Settings) (h : resolvedSettings e = Except.ok s) :
    ∃ s0, settingsInit e = Except.ok s0 ∧ s = applyEnvOverrides s0 := by
  unfold resolvedSettings at h
  cases hi : settingsInit e with
  | error m => rw [hi] at h; exact absurd h (by simp [Except.map])
  | ok s0 =>
    rw [hi] at h
    simp only [Except.map, Except.ok.injEq] at h
    exact ⟨s0, rfl, h.symm⟩

theorem buildDatabaseUrl_no_password (s : Settings) (h : s.DATABASE_PASSWORD = "") :
    buildDatabaseUrl s = "postgresql://" ++ s.DATABASE_USER ++ "@" ++ s.DATABASE_HOST ++
      ":" ++ toString s.DATABASE_PORT ++ "/" ++ s.DATABASE_NAME := by
  unfold buildDatabaseUrl
  rw [if_neg (not_not_intro h)]

theorem finishInit_db_some (X : Settings) (h : optFalsy X.DATABASE_URL = true) :
    (finishInit X).DATABASE_URL = some (buildDatabaseUrl (finishInit X)) := by
  rw [finishInit_DATABASE_URL, if_pos h, buildDatabaseUrl_finishInit]

theorem finishInit_db_some_nopw (X : Settings) (h : optFalsy X.DATABASE_URL = true)
    (hpw : X.DATABASE_PASSWORD = "") :
    (finishInit X).DATABASE_URL = some ("postgresql://" ++ (finishInit X).DATABASE_USER ++
      "@" ++ (finishInit X).DATABASE_HOST ++ ":" ++ toString (finishInit X).DATABASE_PORT ++
      "/" ++ (finishInit X).DATABASE_NAME) := by
  rw [finishInit_DATABASE_URL, if_pos h, buildDatabaseUrl_no_password X hpw]
  rfl

theorem finishInit_db_keep (X : Settings) (h : optFalsy X.DATABASE_URL = false) :
    (finishInit X).DATABASE_URL = X.DATABASE_URL := by
  rw [finishInit_DATABASE_URL]
  simp [h]

theorem finishInit_redis_some (X : Settings) (h : optFalsy X.REDIS_URL = true) :
    (finishInit X).REDIS_URL = some (buildRedisUrl (finishInit X)) := by
  rw [finishInit_REDIS_URL, if_pos h, buildRedisUrl_finishInit]

theorem settingsInit_error_of_bad_PORT (e : Env) (s : String) (hp : e "PORT" = some s)
    (hn : pyInt? s = none) : (settingsInit e).isOk = false := by
  have hbad : envIntOk e "PORT" = false := by
    unfold envIntOk
    simp only [hp]
    rw [hn]
    rfl
  have hfp : fieldsParseOk e = false := by
    unfold fieldsParseOk
    rw [hbad]
    simp
  have hsf : settingsFields e = Except.error "pydantic ValidationError" := by
    unfold settingsFields
    rw [if_neg (by simp [hfp])]
  unfold settingsInit
  rw [hsf]
  rfl

theorem bad_PORT_startup (e : Env) (s : String) (hp : e "PORT" = some s)
    (hn : pyInt? s = none) :
    resolve_port_universal (setup_environment e) = 8000
  ∧ resolve_port_render (setup_render_environment e) = 8000
  ∧ (settingsInit e).isOk = false
  ∧ (check_requirements (setup_environment e) = true →
      ∃ lv d, universal_main e = StartResult.launch 8000 lv d)
  ∧ ((render_missing (setup_render_environment e)).isEmpty = true →
      ∃ lv, render_main e = StartResult.launch 8000 lv 3) := by
  have hup : (setup_environment e) "PORT" = some s := setup_keeps_PORT e s hp
  have hrp : (setup_render_environment e) "PORT" = some s := setup_render_keeps_PORT e s hp
  have h1 := resolve_port_universal_of_bad _ s hup hn
  have h2 := resolve_port_render_of_bad _ s hrp hn
  refine ⟨h1, h2, settingsInit_error_of_bad_PORT e s hp hn, ?_, ?_⟩
  · intro hcheck
    refine ⟨pyLower (((setup_environment e) "LOG_LEVEL").getD "INFO"),
      if detect_platform (setup_environment e) = "render" then 3 else 5, ?_⟩
    simp only [universal_main, hcheck, if_true, ite_true, h1]
  · intro hrm
    refine ⟨pyLower (((setup_render_environment e) "LOG_LEVEL").getD "INFO"), ?_⟩
    simp only [render_main, hrm, if_true, ite_true, h2]

/-! ### Split-trim lemmas -/

theorem dropWhile_dropWhile (p : Char → Bool) (l : List Char) :
    List.dropWhile p (List.dropWhile p l) = List.dropWhile p l := by
  induction l with
  | nil => rfl
  | cons a l ih => cases hp : p a <;> simp [List.dropWhile_cons, hp, ih]

theorem dropWhile_prefix_fixed (p : Char → Bool) {m q : List Char}
    (hm : List.dropWhile p m = m) (hq : q <+: m) : List.dropWhile p q = q := by
  cases q with
  | nil => rfl
  | cons a q2 =>
    obtain ⟨t, ht⟩ := hq
    have hpa : p a = false := by
      by_contra hcon
      have hpa2 : p a = true := by revert hcon; cases p a <;> simp
      rw [← ht, List.cons_append, List.dropWhile_cons, if_pos hpa2] at hm
      have hlen := congrArg List.length hm
      rw [List.length_cons] at hlen
      have hle : (List.dropWhile p (q2 ++ t)).length ≤ (q2 ++ t).length :=
        ((List.dropWhile_suffix p).sublist).length_le
      omega
    rw [List.dropWhile_cons, if_neg (by simp [hpa])]

theorem rtrim_prefixOf (p : Char → Bool) (m : List Char) :
    (List.dropWhile p m.reverse).reverse <+: m := by
  have h2 := List.reverse_prefix.mpr (List.dropWhile_suffix p (l := m.reverse))
  rwa [List.reverse_reverse] at h2

theorem trimC_left_fixed (l : List Char) :
    List.dropWhile Char.isWhitespace (trimC l) = trimC l :=
  dropWhile_prefix_fixed Char.isWhitespace (dropWhile_dropWhile Char.isWhitespace l)
    (rtrim_prefixOf Char.isWhitespace (List.dropWhile Char.isWhitespace l))

theorem trimC_idem (l : List Char) : trimC (trimC l) = trimC l := by
  have h2 : (trimC l).reverse =
      List.dropWhile Char.isWhitespace (List.dropWhile Char.isWhitespace l).reverse := by
    unfold trimC
    rw [List.reverse_reverse]
  calc trimC (trimC l)
      = ((List.dropWhile Char.isWhitespace (trimC l)).reverse.dropWhile
          Char.isWhitespace).reverse := rfl
    _ = ((trimC l).reverse.dropWhile Char.isWhitespace).reverse := by
          rw [trimC_left_fixed]
    _ = ((List.dropWhile Char.isWhitespace
          (List.dropWhile Char.isWhitespace l).reverse).dropWhile Char.isWhitespace).reverse := by
          rw [h2]
    _ = (List.dropWhile Char.isWhitespace
          (List.dropWhile Char.isWhitespace l).reverse).reverse := by
          rw [dropWhile_dropWhile]
    _ = trimC l := rfl

theorem mem_of_mem_dropWhile {p : Char → Bool} {c : Char} {l : List Char}
    (h : c ∈ List.dropWhile p l) : c ∈ l :=
  ((List.dropWhile_suffix p).sublist).mem h

theorem mem_trimC {c : Char} {l : List Char} (h : c ∈ trimC l) : c ∈ l := by
  unfold trimC at h
  rw [List.mem_reverse] at h
  have h2 := mem_of_mem_dropWhile h
  rw [List.mem_reverse] at h2
  exact mem_of_mem_dropWhile h2

theorem splitCommaC_no_comma : ∀ (l acc : List Char), (∀ c ∈ acc, c ≠ ',') →
    ∀ t ∈ splitCommaC l acc, ∀ c ∈ t, c ≠ ',' := by
  intro l
  induction l with
  | nil =>
    intro acc hacc t ht c hc
    simp only [splitCommaC, List.mem_singleton] at ht
    subst ht
    exact hacc c (List.mem_reverse.mp hc)
  | cons a l ih =>
    intro acc hacc t ht c hc
    by_cases ha : a = ','
    · simp only [splitCommaC, if_pos ha, List.mem_cons] at ht
      rcases ht with rfl | ht2
      · exact hacc c (List.mem_reverse.mp hc)
      · exact ih [] (by simp) t ht2 c hc
    · simp only [splitCommaC, if_neg ha] at ht
      refine ih (a :: acc) ?_ t ht c hc
      intro x hx
      rcases List.mem_cons.mp hx with rfl | hx2
      · exact ha
      · exact hacc x hx2

theorem splitCommaC_nocomma_all (t : List Char) (hn : ∀ c ∈ t, c ≠ ',') :
    ∀ acc, splitCommaC t acc = [acc.reverse ++ t] := by
  induction t with
  | nil => intro acc; simp [splitCommaC]
  | cons a t ih =>
    intro acc
    have ha : a ≠ ',' := hn a (List.mem_cons_self a t)
    simp only [splitCommaC, if_neg ha]
    rw [ih (fun c hc => hn c (List.mem_cons_of_mem a hc)) (a :: acc)]
    simp

theorem splitCommaC_append (t : List Char) (hn : ∀ c ∈ t, c ≠ ',') :
    ∀ acc rest, splitCommaC (t ++ ',' :: rest) acc =
      (acc.reverse ++ t) :: splitCommaC rest [] := by
  induction t with
  | nil => intro acc rest; simp [splitCommaC]
  | cons a t ih =>
    intro acc rest
    have ha : a ≠ ',' := hn a (List.mem_cons_self a t)
    simp only [List.cons_append, splitCommaC, if_neg ha]
    rw [List.append_eq, ih (fun c hc => hn c (List.mem_cons_of_mem a hc)) (a :: acc) rest]
    simp

theorem splitCommaC_join (ts : List (List Char)) (hts : ∀ t ∈ ts, ∀ c ∈ t, c ≠ ',')
    (hne : ts ≠ []) : splitCommaC (joinCommaC ts) [] = ts := by
  induction ts with
  | nil => exact absurd rfl hne
  | cons t ts ih =>
    cases ts with
    | nil =>
      show splitCommaC (joinCommaC [t]) [] = [t]
      rw [show joinCommaC [t] = t from rfl,
        splitCommaC_nocomma_all t (hts t (List.mem_cons_self t [])) []]
      simp
    | cons u us =>
      show splitCommaC (t ++ ',' :: joinCommaC (u :: us)) [] = t :: u :: us
      rw [splitCommaC_append t (hts t (List.mem_cons_self t (u :: us))) [] _]
      rw [ih (fun x hx => hts x (List.mem_cons_of_mem t hx)) (by simp)]
      simp

theorem map_self {α : Type} (f : α → α) :
    ∀ (l : List α), (∀ a ∈ l, f a = a) → l.map f = l := by
  intro l
  induction l with
  | nil => intro _; rfl
  | cons a l ih =>
    intro h
    rw [List.map_cons, h a (List.mem_cons_self a l),
      ih (fun x hx => h x (List.mem_cons_of_mem a hx))]

theorem splitTrimC_no_comma {l t : List Char} (ht : t ∈ splitTrimC l) :
    ∀ c ∈ t, c ≠ ',' := by
  unfold splitTrimC at ht
  have ht2 := (List.mem_filter.mp ht).1
  obtain ⟨u, hu, rfl⟩ := List.mem_map.mp ht2
  intro c hc
  exact splitCommaC_no_comma l [] (by simp) u hu c (mem_trimC hc)

theorem splitTrimC_trimmed {l t : List Char} (ht : t ∈ splitTrimC l) : trimC t = t := by
  unfold splitTrimC at ht
  have ht2 := (List.mem_filter.mp ht).1
  obtain ⟨u, hu, rfl⟩ := List.mem_map.mp ht2
  exact trimC_idem u

theorem splitTrimC_ne_nil {l t : List Char} (ht : t ∈ splitTrimC l) : t ≠ [] := by
  have h2 := (List.mem_filter.mp ht).2
  simpa [List.isEmpty_iff] using h2

theorem splitTrimC_idem (l : List Char) :
    splitTrimC (joinCommaC (splitTrimC l)) = splitTrimC l := by
  by_cases h : splitTrimC l = []
  · rw [h]
    rfl
  · have hsplit : splitCommaC (joinCommaC (splitTrimC l)) [] = splitTrimC l :=
      splitCommaC_join _ (fun t ht => splitTrimC_no_comma ht) h
    show ((splitCommaC (joinCommaC (splitTrimC l)) []).map trimC).filter
      (fun t => !t.isEmpty) = splitTrimC l
    rw [hsplit, map_self trimC _ (fun t ht => splitTrimC_trimmed ht),
      List.filter_eq_self.mpr]
    intro a ha
    simp [List.isEmpty_iff, splitTrimC_ne_nil ha]

theorem pySplitTrim_idem (v : String) :
    pySplitTrim (commaJoin (pySplitTrim v)) = pySplitTrim v := by
  unfold pySplitTrim commaJoin
  rw [show (List.asString (joinCommaC (((splitTrimC v.toList).map List.asString).map
      String.toList))).toList =
    joinCommaC (((splitTrimC v.toList).map List.asString).map String.toList) from rfl]
  rw [List.map_map, map_self (String.toList ∘ List.asString) _ (fun a _ => rfl),
    splitTrimC_idem]

/-! ### The claims -/

/-- C1: for every non-numeric (unparseable) string set as `PORT`, the two
components diverge: both startup sequencers resolve the port to the default
8000 and, when the required-variable check passes, continue to launch, while
`Settings` construction raises a fatal configuration error. -/
theorem spec_c1_port_nonnumeric_divergence (e : Env) (s : String)
    (hp : e "PORT" = some s) (hn : pyInt? s = none) :
    resolve_port_universal (setup_environment e) = 8000
  ∧ resolve_port_render (setup_render_environment e) = 8000
  ∧ (settingsInit e).isOk = false
  ∧ (check_requirements (setup_environment e) = true →
      ∃ lv d, universal_main e = StartResult.launch 8000 lv d)
  ∧ ((render_missing (setup_render_environment e)).isEmpty = true →
      ∃ lv, render_main e = StartResult.launch 8000 lv 3) :=
  bad_PORT_startup e s hp hn

theorem spec_c1_witness :
    (setEnv emptyEnv "PORT" "abc") "PORT" = some "abc" ∧ pyInt? "abc" = none
  ∧ resolve_port_universal (setup_environment (setEnv emptyEnv "PORT" "abc")) = 8000
  ∧ (settingsInit (setEnv emptyEnv "PORT" "abc")).isOk = false :=
  ⟨by decide, by decide,
    (spec_c1_port_nonnumeric_divergence (setEnv emptyEnv "PORT" "abc") "abc"
      (by decide) (by decide)).1,
    (spec_c1_port_nonnumeric_divergence (setEnv emptyEnv "PORT" "abc") "abc"
      (by decide) (by decide)).2.2.1⟩

/-- C2: after environment normalization, the required-variable validation
passes exactly when every variable of the platform-dependent required set
(`JWT_SECRET` alone for a local platform, `DATABASE_URL` and `JWT_SECRET`
otherwise) is truthy; a non-empty missing list makes `main` exit (code 1)
carrying the missing names, an empty one leads to a launch; and with only
`JWT_SECRET` set and no platform signals the launch is attempted on port
8000. -/
theorem spec_c2_required_vars_validation (e0 : Env) :
    (check_requirements (setup_environment e0) = true ↔
      ∀ v ∈ (if detect_platform (setup_environment e0) = "local" then ["JWT_SECRET"]
             else ["DATABASE_URL", "JWT_SECRET"]),
        truthy (setup_environment e0) v = true)
  ∧ (missing_vars (setup_environment e0) ≠ [] →
      universal_main e0 = StartResult.exitMissing (missing_vars (setup_environment e0)))
  ∧ (missing_vars (setup_environment e0) = [] →
      ∃ p lv d, universal_main e0 = StartResult.launch p lv d)
  ∧ universal_main (setEnv emptyEnv "JWT_SECRET" "secret") =
      StartResult.launch 8000 "debug" 5 := by
  refine ⟨?_, ?_, ?_, by decide⟩
  · unfold check_requirements missing_vars required_vars
    rw [List.isEmpty_iff, List.filter_eq_nil_iff]
    constructor
    · intro hall v hv
      have := hall v hv
      simpa using this
    · intro hall v hv
      simp [hall v hv]
  · intro hne
    have hb : check_requirements (setup_environment e0) = false := by
      unfold check_requirements
      simpa [List.isEmpty_iff] using hne
    simp only [universal_main, hb, Bool.false_eq_true, if_false, ite_false]
  · intro heq
    have hb : check_requirements (setup_environment e0) = true := by
      unfold check_requirements
      simp [List.isEmpty_iff, heq]
    refine ⟨resolve_port_universal (setup_environment e0),
      pyLower (((setup_environment e0) "LOG_LEVEL").getD "INFO"),
      if detect_platform (setup_environment e0) = "render" then 3 else 5, ?_⟩
    simp only [universal_main, hb, if_true, ite_true]

theorem spec_c2_witness :
    missing_vars (setup_environment emptyEnv) ≠ []
  ∧ universal_main emptyEnv = StartResult.exitMissing ["JWT_SECRET"] :=
  ⟨by decide, ((spec_c2_required_vars_validation emptyEnv).2.1 (by decide)).trans (by decide)⟩

/-- C3: after the module-level overrides, the resolved settings satisfy
`DEBUG = true` exactly when the final `ENVIRONMENT` is `"development"`: the
last `__init__` step recomputes `DEBUG` from the final environment name, and
the production override (the only later write to `DEBUG`) preserves the
biconditional. -/
theorem spec_c3_debug_iff_development (e : Env) (s : Settings)
    (h : resolvedSettings e = Except.ok s) :
    s.DEBUG = true ↔ s.ENVIRONMENT = "development" := by
  obtain ⟨s0, h0, rfl⟩ := resolvedSettings_ok e s h
  have hd := settingsInit_DEBUG e s0 h0
  unfold applyEnvOverrides
  by_cases hp : s0.ENVIRONMENT = "production"
  · rw [if_pos hp]
    simp [hp]
  · rw [if_neg hp]
    by_cases hs : s0.ENVIRONMENT = "staging"
    · rw [if_pos hs]
      simp [hd, hs]
    · rw [if_neg hs]
      rw [hd]
      simp [beq_iff_eq]

theorem spec_c3_witness :
    resolvedSettings emptyEnv = Except.ok (settingsOf emptyEnv)
  ∧ ((settingsOf emptyEnv).DEBUG = true ↔ (settingsOf emptyEnv).ENVIRONMENT = "development") :=
  ⟨rfl, spec_c3_debug_iff_development emptyEnv (settingsOf emptyEnv) rfl⟩

/-- C4: whatever `ALLOWED_ORIGINS` value is supplied, a resolved environment
of `"production"` makes the origins accessor return exactly the two fixed
production origins, `"staging"` exactly the two fixed staging origins, and
any other environment leaves the `ALLOWED_ORIGINS` field the raw supplied
(or default) string, untouched by the overrides. -/
theorem spec_c4_env_specific_origins (e : Env) (s : Settings)
    (h : resolvedSettings e = Except.ok s) :
    (s.ENVIRONMENT = "production" →
      allowed_origins_list s = ["https://afterlight.app", "https://www.afterlight.app"])
  ∧ (s.ENVIRONMENT = "staging" →
      allowed_origins_list s =
        ["https://staging.afterlight.app", "https://staging-www.afterlight.app"])
  ∧ (s.ENVIRONMENT ≠ "production" → s.ENVIRONMENT ≠ "staging" →
      s.ALLOWED_ORIGINS = StrOrList.str ((e "ALLOWED_ORIGINS").getD allowedOriginsDefault)) := by
  obtain ⟨s0, h0, rfl⟩ := resolvedSettings_ok e s h
  unfold applyEnvOverrides
  by_cases hp : s0.ENVIRONMENT = "production"
  · rw [if_pos hp]
    refine ⟨fun _ => rfl, fun hst => ?_, fun hnp _ => absurd hp hnp⟩
    have hcontra : s0.ENVIRONMENT = "staging" := hst
    rw [hp] at hcontra
    exact absurd hcontra (by decide)
  · rw [if_neg hp]
    by_cases hs : s0.ENVIRONMENT = "staging"
    · rw [if_pos hs]
      refine ⟨fun hpr => ?_, fun _ => rfl, fun _ hns => absurd hs hns⟩
      have hcontra : s0.ENVIRONMENT = "production" := hpr
      rw [hs] at hcontra
      exact absurd hcontra (by decide)
    · rw [if_neg hs]
      refine ⟨fun hpr => absurd hpr hp, fun hst => absurd hst hs, fun _ _ => ?_⟩
      obtain ⟨-, en, dbg, prt, rfl⟩ := settingsInit_shape e s0 h0
      rfl

theorem spec_c4_witness :
    resolvedSettings (setEnv emptyEnv "ENVIRONMENT" "production") =
      Except.ok (settingsOf (setEnv emptyEnv "ENVIRONMENT" "production"))
  ∧ (settingsOf (setEnv emptyEnv "ENVIRONMENT" "production")).ENVIRONMENT = "production"
  ∧ allowed_origins_list (settingsOf (setEnv emptyEnv "ENVIRONMENT" "production")) =
      ["https://afterlight.app", "https://www.afterlight.app"] :=
  ⟨rfl, by decide,
    (spec_c4_env_specific_origins (setEnv emptyEnv "ENVIRONMENT" "production")
      (settingsOf (setEnv emptyEnv "ENVIRONMENT" "production")) rfl).1 (by decide)⟩

/-- C5: when no truthy `DATABASE_URL` is supplied, `Settings.__init__`
synthesizes it from the user/password/host/port/name fields, omitting the
credential segment entirely when the password is empty (the form
`postgresql://user@host:port/name`, with no `:` before the `@`); a supplied
non-empty `DATABASE_URL` is left unchanged. -/
theorem spec_c5_database_url_synthesis (e : Env) (s : Settings)
    (h : settingsInit e = Except.ok s) :
    (optFalsy (e "DATABASE_URL") = true →
      s.DATABASE_URL = some (buildDatabaseUrl s) ∧
      (s.DATABASE_PASSWORD = "" →
        s.DATABASE_URL = some ("postgresql://" ++ s.DATABASE_USER ++ "@" ++ s.DATABASE_HOST ++
          ":" ++ toString s.DATABASE_PORT ++ "/" ++ s.DATABASE_NAME)))
  ∧ (∀ u, e "DATABASE_URL" = some u → u ≠ "" → s.DATABASE_URL = some u) := by
  obtain ⟨-, en, dbg, prt, rfl⟩ := settingsInit_shape e s h
  constructor
  · intro hfal
    exact ⟨finishInit_db_some _ hfal, fun hpw => finishInit_db_some_nopw _ hfal hpw⟩
  · intro u hu hne
    have hX : optFalsy (e "DATABASE_URL") = false := by
      rw [hu]
      simp [optFalsy, hne]
    exact (finishInit_db_keep _ hX).trans hu

theorem spec_c5_witness :
    settingsInit emptyEnv = Except.ok (settingsOfInit emptyEnv)
  ∧ optFalsy (emptyEnv "DATABASE_URL") = true
  ∧ (settingsOfInit emptyEnv).DATABASE_PASSWORD = ""
  ∧ (settingsOfInit emptyEnv).DATABASE_URL =
      some "postgresql://postgres@localhost:5432/afterlight" :=
  ⟨rfl, by decide, by decide, by
    have h := ((spec_c5_database_url_synthesis emptyEnv (settingsOfInit emptyEnv) rfl).1
      (by decide)).2 (by decide)
    exact h.trans (by decide)⟩

/-- C6: with `PORT` set to the exact literal string `"$PORT"`, both startup
paths resolve the listen port to the default 8000 with no fatal error — the
universal script by its special-case substitution, the render script by its
caught-`ValueError` fallback — and, when the required-variable check passes,
both proceed to launch on port 8000. -/
theorem spec_c6_port_placeholder (e : Env) (h : e "PORT" = some "$PORT") :
    resolve_port_universal (setup_environment e) = 8000
  ∧ resolve_port_render (setup_render_environment e) = 8000
  ∧ (check_requirements (setup_environment e) = true →
      ∃ lv d, universal_main e = StartResult.launch 8000 lv d)
  ∧ ((render_missing (setup_render_environment e)).isEmpty = true →
      ∃ lv, render_main e = StartResult.launch 8000 lv 3) := by
  obtain ⟨h1, h2, -, h4, h5⟩ := bad_PORT_startup e "$PORT" h (by decide)
  exact ⟨h1, h2, h4, h5⟩

theorem spec_c6_witness :
    (setEnv emptyEnv "PORT" "$PORT") "PORT" = some "$PORT"
  ∧ resolve_port_universal (setup_environment (setEnv emptyEnv "PORT" "$PORT")) = 8000
  ∧ resolve_port_render (setup_render_environment (setEnv emptyEnv "PORT" "$PORT")) = 8000 :=
  ⟨by decide,
    (spec_c6_port_placeholder (setEnv emptyEnv "PORT" "$PORT") (by decide)).1,
    (spec_c6_port_placeholder (setEnv emptyEnv "PORT" "$PORT") (by decide)).2.1⟩

/-- C7: whenever `RAILWAY_ENVIRONMENT` is the exact value `"production"`, the
normalizer dispatched by `setup_environment` writes
`ENVIRONMENT=production`, `DEBUG=false` and `LOG_LEVEL=INFO` into the
environment, overwriting any prior values of those three variables. -/
theorem spec_c7_railway_production_normalization (e : Env)
    (h : e "RAILWAY_ENVIRONMENT" = some "production") :
    (setup_environment e) "ENVIRONMENT" = some "production"
  ∧ (setup_environment e) "DEBUG" = some "false"
  ∧ (setup_environment e) "LOG_LEVEL" = some "INFO" := by
  have hd : detect_platform e = "railway" := detect_railway_of_prod e h
  unfold setup_environment
  rw [if_pos hd]
  exact setup_railway_prod_lookups e h

theorem spec_c7_witness :
    (setEnv (setEnv (setEnv emptyEnv "DEBUG" "true") "LOG_LEVEL" "TRACE")
        "RAILWAY_ENVIRONMENT" "production") "RAILWAY_ENVIRONMENT" = some "production"
  ∧ (setup_environment (setEnv (setEnv (setEnv emptyEnv "DEBUG" "true") "LOG_LEVEL" "TRACE")
        "RAILWAY_ENVIRONMENT" "production")) "DEBUG" = some "false"
  ∧ (setup_environment (setEnv (setEnv (setEnv emptyEnv "DEBUG" "true") "LOG_LEVEL" "TRACE")
        "RAILWAY_ENVIRONMENT" "production")) "LOG_LEVEL" = some "INFO" :=
  ⟨by decide,
    (spec_c7_railway_production_normalization _ (by decide)).2.1,
    (spec_c7_railway_production_normalization _ (by decide)).2.2⟩

/-- C8: platform detection is a pure function of the environment with the
fixed priority order: a truthy `RAILWAY_ENVIRONMENT` yields `"railway"`
regardless of `RENDER`, otherwise a truthy `RENDER` yields `"render"`,
otherwise `"local"`. -/
theorem spec_c8_platform_detection_priority (e : Env) :
    (truthy e "RAILWAY_ENVIRONMENT" = true → detect_platform e = "railway")
  ∧ (truthy e "RAILWAY_ENVIRONMENT" = false → truthy e "RENDER" = true →
      detect_platform e = "render")
  ∧ (truthy e "RAILWAY_ENVIRONMENT" = false → truthy e "RENDER" = false →
      detect_platform e = "local") := by
  refine ⟨fun h1 => ?_, fun h1 h2 => ?_, fun h1 h2 => ?_⟩
  · simp [detect_platform, h1]
  · simp [detect_platform, h1, h2]
  · simp [detect_platform, h1, h2]

theorem spec_c8_witness :
    truthy (setEnv (setEnv emptyEnv "RAILWAY_ENVIRONMENT" "prod") "RENDER" "true")
      "RAILWAY_ENVIRONMENT" = true
  ∧ detect_platform (setEnv (setEnv emptyEnv "RAILWAY_ENVIRONMENT" "prod") "RENDER" "true") =
      "railway" :=
  ⟨by decide,
    (spec_c8_platform_detection_priority
      (setEnv (setEnv emptyEnv "RAILWAY_ENVIRONMENT" "prod") "RENDER" "true")).1 (by decide)⟩

/-- C9: the list derivation used by the accessors (split on commas, trim each
entry, drop empty entries) is idempotent — re-joining the derived list with
the comma delimiter and parsing again reproduces the same token sequence —
and each of the three accessors performs exactly this derivation on its
string-valued field. -/
theorem spec_c9_list_derivation_idempotent (v : String) :
    pySplitTrim (commaJoin (pySplitTrim v)) = pySplitTrim v
  ∧ (∀ s : Settings, s.ALLOWED_ORIGINS = StrOrList.str v →
      allowed_origins_list s = pySplitTrim v)
  ∧ (∀ s : Settings, s.ALLOWED_HOSTS = StrOrList.str v →
      allowed_hosts_list s = pySplitTrim v)
  ∧ (∀ s : Settings, s.ALLOWED_FILE_TYPES = StrOrList.str v →
      allowed_file_types_list s = pySplitTrim v) := by
  refine ⟨pySplitTrim_idem v, fun s hs => ?_, fun s hs => ?_, fun s hs => ?_⟩
  · simp [allowed_origins_list, hs]
  · simp [allowed_hosts_list, hs]
  · simp [allowed_file_types_list, hs]

theorem spec_c9_witness :
    pySplitTrim (commaJoin (pySplitTrim "  a , ,b,, c  ")) = pySplitTrim "  a , ,b,, c  "
  ∧ (rawSettings emptyEnv).ALLOWED_ORIGINS = StrOrList.str allowedOriginsDefault
  ∧ allowed_origins_list (rawSettings emptyEnv) = pySplitTrim allowedOriginsDefault :=
  ⟨(spec_c9_list_derivation_idempotent "  a , ,b,, c  ").1, rfl,
    (spec_c9_list_derivation_idempotent allowedOriginsDefault).2.1 (rawSettings emptyEnv) rfl⟩

/-- C10 counterexample: the Settings Resolver does not treat `PORT=""` like
an absent `PORT`.  With `PORT` absent, `Settings` construction succeeds;
with `PORT=""`, pydantic field validation fails to parse `""` as an integer
and construction raises, so the port-override step is never reached instead
of being skipped. -/
theorem spec_c10_empty_string_counterexample :
    (settingsInit (setEnv emptyEnv "PORT" "")).isOk = false
  ∧ (settingsInit emptyEnv).isOk = true := by
  constructor <;> decide

/-- C10 (amended): the empty string is treated like an absent value by
platform detection, by the required-variable validation, and by the
`DATABASE_URL`/`REDIS_URL` synthesis; but a `PORT` set to the empty string
is a fatal configuration error in the Settings Resolver (field validation
cannot parse `""` as an integer), not an absent-like skip of the port
override. -/
theorem spec_c10_empty_string_amended (e : Env) :
    (e "RAILWAY_ENVIRONMENT" = some "" → detect_platform e ≠ "railway")
  ∧ (e "RENDER" = some "" → detect_platform e ≠ "render")
  ∧ (∀ v, v ∈ required_vars e → e v = some "" → v ∈ missing_vars e)
  ∧ (∀ s, settingsInit e = Except.ok s → e "DATABASE_URL" = some "" →
      s.DATABASE_URL = some (buildDatabaseUrl s))
  ∧ (∀ s, settingsInit e = Except.ok s → e "REDIS_URL" = some "" →
      s.REDIS_URL = some (buildRedisUrl s))
  ∧ (e "PORT" = some "" → (settingsInit e).isOk = false) := by
  refine ⟨?_, ?_, ?_, ?_, ?_, ?_⟩
  · intro h
    have hf : truthy e "RAILWAY_ENVIRONMENT" = false := by simp [truthy, h]
    unfold detect_platform
    rw [hf]
    simp only [Bool.false_eq_true, if_false, ite_false]
    split <;> decide
  · intro h
    have hf : truthy e "RENDER" = false := by simp [truthy, h]
    unfold detect_platform
    rw [hf]
    simp only [Bool.false_eq_true, if_false, ite_false]
    split <;> decide
  · intro v hv h
    unfold missing_vars
    rw [List.mem_filter]
    exact ⟨hv, by simp [truthy, h]⟩
  · intro s hs hdb
    obtain ⟨-, en, dbg, prt, rfl⟩ := settingsInit_shape e s hs
    have hx : optFalsy (e "DATABASE_URL") = true := by rw [hdb]; rfl
    exact finishInit_db_some _ hx
  · intro s hs hrd
    obtain ⟨-, en, dbg, prt, rfl⟩ := settingsInit_shape e s hs
    have hx : optFalsy (e "REDIS_URL") = true := by rw [hrd]; rfl
    exact finishInit_redis_some _ hx
  · intro h
    exact settingsInit_error_of_bad_PORT e "" h (by decide)

theorem spec_c10_witness :
    (setEnv emptyEnv "DATABASE_URL" "") "DATABASE_URL" = some ""
  ∧ settingsInit (setEnv emptyEnv "DATABASE_URL" "") =
      Except.ok (settingsOfInit (setEnv emptyEnv "DATABASE_URL" ""))
  ∧ (settingsOfInit (setEnv emptyEnv "DATABASE_URL" "")).DATABASE_URL =
      some (buildDatabaseUrl (settingsOfInit (setEnv emptyEnv "DATABASE_URL" "")))
  ∧ detect_platform (setEnv emptyEnv "RAILWAY_ENVIRONMENT" "") ≠ "railway" :=
  ⟨by decide, rfl,
    (spec_c10_empty_string_amended (setEnv emptyEnv "DATABASE_URL" "")).2.2.2.1
      (settingsOfInit (setEnv emptyEnv "DATABASE_URL" "")) rfl (by decide),
    (spec_c10_empty_string_amended (setEnv emptyEnv "RAILWAY_ENVIRONMENT" "")).1 (by decide)⟩
